import Mathlib

/-!
# Verification of the `rabbitmq` broker plugin (lastbackend/toolkit-plugins)

Shallow embedding of the pub/sub broker core found in the repository's
`rabbitmq` plugin (`broker.go` / `plugin.go`): the handler registry, the
`Publish` / `Subscribe` / `Ack` / `Reject` / `RejectAndRequeue` / `Disconnect`
facade, the per-delivery consumer dispatch closure, the index-based
unsubscribe closure, and the `checkRabbitMQ` liveness probe.

Conventions of the embedding:
* Go byte strings (`[]byte`, and Go `string` where its raw bytes matter)
  are `List Nat`, each element a byte value.
* Go `string` values used only as map keys / labels (exchange, event,
  routing key, header keys) are Lean `String`; a Lean `String` models a
  valid-UTF-8 Go string.
* A Go function value stored in the registry (`CallHandler`) is modelled
  by an opaque-to-the-broker numeric identifier; the dispatch code never
  inspects a handler, it only stores and calls it, so invocations are
  recorded as data.
* `sync.Mutex` acquisition is modelled by an explicit lock counter carried
  through the straight-line code of the dispatch closure; what matters for
  the claims is whether the closure returns with the mutex still held.
* Fallible Go functions returning `error` become `Except String α`
  (`.error` carries the Go error message).
-/

namespace RabbitMQ

/-- A sequence of bytes: Go `[]byte`, or the raw bytes of a Go `string`. -/
abbrev ByteSeq := List Nat

/-- The UTF-8 encoding of U+FFFD (the Unicode replacement character),
which Go's `encoding/json` writes in place of each invalid byte. -/
def replacementBytes : ByteSeq := [0xEF, 0xBF, 0xBD]

/-- Is `b` a UTF-8 continuation byte (`0x80..0xBF`)? Mirrors the `locb`/`hicb`
bounds of Go's `unicode/utf8`. -/
def isCont (b : Nat) : Bool := 0x80 ≤ b && b ≤ 0xBF

/-- Valid range of the second byte of a three-byte sequence headed by `b0`,
per the `acceptRanges` table of Go's `unicode/utf8` (rejects overlong
encodings and surrogates). -/
def accept3 (b0 b1 : Nat) : Bool :=
  if b0 == 0xE0 then 0xA0 ≤ b1 && b1 ≤ 0xBF
  else if b0 == 0xED then 0x80 ≤ b1 && b1 ≤ 0x9F
  else isCont b1

/-- Valid range of the second byte of a four-byte sequence headed by `b0`,
per the `acceptRanges` table of Go's `unicode/utf8` (rejects overlong
encodings and code points above U+10FFFF). -/
def accept4 (b0 b1 : Nat) : Bool :=
  if b0 == 0xF0 then 0x90 ≤ b1 && b1 ≤ 0xBF
  else if b0 == 0xF4 then 0x80 ≤ b1 && b1 ≤ 0x8F
  else isCont b1

/-- Byte of `s` at index `i`; out-of-range reads yield the sentinel `0x100`,
which no acceptance check matches (it is larger than every byte). -/
def byteAt (s : ByteSeq) (i : Nat) : Nat := (s.get? i).getD 0x100

/-- Length (1–4) of the valid UTF-8 rune sequence at the head of `s`, or `0`
when the head is not the start of a valid rune — the case in which Go's
`utf8.DecodeRuneInString` returns `(RuneError, 1)`, consuming one byte.
Follows the `first`/`acceptRanges` tables of Go's `unicode/utf8`. -/
def runeLen (s : ByteSeq) : Nat :=
  let b0 := byteAt s 0
  if b0 ≤ 0x7F then 1
  else if (0xC2 ≤ b0 && b0 ≤ 0xDF) && isCont (byteAt s 1) then 2
  else if (0xE0 ≤ b0 && b0 ≤ 0xEF) && accept3 b0 (byteAt s 1) &&
      isCont (byteAt s 2) then 3
  else if (0xF0 ≤ b0 && b0 ≤ 0xF4) && accept4 b0 (byteAt s 1) &&
      isCont (byteAt s 2) && isCont (byteAt s 3) then 4
  else 0

/-- Net effect, on the raw bytes of a Go string field, of
`json.Marshal` followed by `json.Unmarshal` (both from Go's
`encoding/json`, which the broker's `Publish` and the consumer closure
call on the `message` struct). Per the documented contract of
`json.Marshal`, string values are "coerced to valid UTF-8, replacing
invalid bytes with the Unicode replacement rune"; every valid rune
sequence round-trips byte-identically (escapes are undone by
`Unmarshal`), and each invalid byte — `utf8.DecodeRuneInString`
returning `(RuneError, 1)` — is replaced by the three bytes of U+FFFD
with exactly one input byte consumed. -/
def utf8Sanitize : ByteSeq → ByteSeq
  | [] => []
  | b0 :: rest =>
    if _h : runeLen (b0 :: rest) = 0 then replacementBytes ++ utf8Sanitize rest
    else
      (b0 :: rest).take (runeLen (b0 :: rest)) ++
        utf8Sanitize ((b0 :: rest).drop (runeLen (b0 :: rest)))
termination_by s => s.length
decreasing_by
  · simp
  · simp only [List.length_drop, List.length_cons]; omega

/-- Decides whether a byte sequence is valid UTF-8 under exactly the rune
acceptance rules of Go's `unicode/utf8` used by `utf8Sanitize`. -/
def validUtf8 : ByteSeq → Bool
  | [] => true
  | b0 :: rest =>
    if _h : runeLen (b0 :: rest) = 0 then false
    else validUtf8 ((b0 :: rest).drop (runeLen (b0 :: rest)))
termination_by s => s.length
decreasing_by simp only [List.length_drop, List.length_cons]; omega

/-! ## Go maps and slices, as the broker uses them -/

/-- A Go `map[string]α` as an association list with unique keys (the order
of entries is irrelevant to reads; the broker only reads and updates). -/
abbrev GoMap (α : Type) := List (String × α)

/-- Go map read `m[k]` returning `(value, ok)` — `none` models `ok = false`. -/
def mapGet (m : GoMap α) (k : String) : Option α :=
  match m with
  | [] => none
  | (k', v) :: rest => if k' = k then some v else mapGet rest k

/-- Go map write `m[k] = v`: update in place if the key exists, else add. -/
def mapSet (m : GoMap α) (k : String) (v : α) : GoMap α :=
  match m with
  | [] => [(k, v)]
  | (k', v') :: rest =>
    if k' = k then (k', v) :: rest else (k', v') :: mapSet rest k v

/-- Go's `append(h[:i], h[i+1:]...)`, the idiom `broker.Subscribe`'s
`unsubscribe` closure uses to remove the entry at position `i`. For
`i + 1 ≤ len(h)` this removes that entry. For `i + 1 > len(h)` the
expression `h[i+1:]` **panics**: its omitted high bound defaults to
`len(h)` (not the capacity), so the low bound `i + 1` exceeds the high
bound — Go's "slice bounds out of range". `none` models that panic.
(In the defined case `i < len(h) ≤ cap(h)`, so `h[:i]` is always legal.) -/
def goSliceRemove (h : List α) (i : Nat) : Option (List α) :=
  if i + 1 ≤ h.length then some (h.take i ++ h.drop (i + 1)) else none

/-! ## Data model: envelope, transport message, context -/

/-- `fmt.Sprintf("%s:%s", exchange, event)` — the routing-key label built
identically in `broker.Publish` (message `Type`) and `broker.Subscribe`
(registry key). -/
def routingKey (exchange event : String) : String := exchange ++ ":" ++ event

/-- The `message` struct of broker.go: `{Event string; Payload string}`.
`payload` holds the raw bytes of the Go string (`string(payload)` in
`Publish` is the identity on bytes); `event` is a Lean `String` because
every caller passes a Go string literal / identifier (valid UTF-8). -/
structure Message where
  event : String
  payload : ByteSeq
  deriving Repr, DecidableEq

/-- A delivery/publishing body. `wire e p` stands for the JSON text
`{"event": e, "payload": p}` (the unique output of `json.Marshal` on a
`message` whose fields hold those exact bytes); `malformed` is any body
from which `json.Unmarshal` cannot recover a `message`. -/
inductive Body
  | wire (event : String) (payload : ByteSeq)
  | malformed (raw : ByteSeq)
  deriving Repr, DecidableEq

/-- `json.Marshal` on a `message` value: always succeeds (string fields),
coercing each string field to valid UTF-8 (`utf8Sanitize`). The `event`
field is a valid-UTF-8 string already, so only the payload can change. -/
def jsonMarshalMessage (m : Message) : Body :=
  .wire m.event (utf8Sanitize m.payload)

/-- `json.Unmarshal(body, &e)` for a `message` target: recovers the encoded
fields of a well-formed body, fails on a malformed one. -/
def jsonUnmarshalMessage : Body → Option Message
  | .wire e p => some ⟨e, p⟩
  | .malformed _ => none

/-- A value of Go's `amqp.Table` (`map[string]interface{}`): either a string
or anything else — the dispatch closure's `v.(string)` assertion only
distinguishes these two cases. -/
inductive HeaderVal
  | str (s : String)
  | nonString
  deriving Repr, DecidableEq

/-- `headers[k], _ = v.(string)`: a failed type assertion with discarded
`ok` leaves the zero value, the empty string. -/
def headerToString : HeaderVal → String
  | .str s => s
  | .nonString => ""

/-- An `amqp.Publishing` as `broker.Publish` fills it: `Body`, `Type`,
`Headers`. -/
structure Publishing where
  body : Body
  type : String
  headers : GoMap HeaderVal
  deriving Repr, DecidableEq

/-- An `amqp.Delivery` as the consumer closure reads it: `Body`, `Type`,
`Headers`. -/
structure Delivery where
  body : Body
  type : String
  headers : GoMap HeaderVal
  deriving Repr, DecidableEq

/-- The transport hands a published message to a consumer with body, type
and headers intact. -/
def deliveryOf (p : Publishing) : Delivery :=
  { body := p.body, type := p.type, headers := p.headers }

/-- The slots of a `context.Context` that the broker reads or writes: the
`"headers"` value and the `ack{}` / `reject{}` continuation keys
(`func(bool) error`, modelled as `Bool → Except String Unit`). An absent
key is `none` — `ctx.Value` returning `nil` makes the type assertion in
`Ack`/`Reject` fail. -/
structure GoContext where
  headers : GoMap String
  ackFn : Option (Bool → Except String Unit)
  rejectFn : Option (Bool → Except String Unit)

/-- `context.Background()`: carries no values. -/
def backgroundCtx : GoContext := { headers := [], ackFn := none, rejectFn := none }

/-! ## Broker facade: Ack / Reject / RejectAndRequeue (broker.go 82–104) -/

/-- `broker.Ack`: `fn, ok := ctx.Value(ack{}).(func(bool) error)`; errors
with `"no acknowledged"` when absent, else calls `fn(false)`. -/
def Ack (ctx : GoContext) : Except String Unit :=
  match ctx.ackFn with
  | some fn => fn false
  | none => .error "no acknowledged"

/-- `broker.Reject`: continuation under the `reject{}` key, called with
`false`; errors with `"no rejected"` when absent. -/
def Reject (ctx : GoContext) : Except String Unit :=
  match ctx.rejectFn with
  | some fn => fn false
  | none => .error "no rejected"

/-- `broker.RejectAndRequeue`: continuation under the `reject{}` key,
called with `true`; errors with `"no rejected"` when absent. -/
def RejectAndRequeue (ctx : GoContext) : Except String Unit :=
  match ctx.rejectFn with
  | some fn => fn true
  | none => .error "no rejected"

/-! ## Broker state, Publish, Subscribe, unsubscribe, Disconnect -/

/-- The state of a `broker` value that the claims touch: whether `r.conn`
is non-nil, the handler registry `r.handlers map[string][]CallHandler`
(handlers as opaque identifiers), and how many consumer goroutines
`go c.consume()` has started. -/
structure Broker where
  conn : Bool
  handlers : GoMap (List Nat)
  consumers : Nat
  deriving Repr, DecidableEq

/-- `PublishOptions` (options.go): an optional headers table; a `nil`
options pointer is `none`. -/
structure PublishOptions where
  headers : Option (GoMap HeaderVal)
  deriving Repr, DecidableEq

/-- `SubscribeOptions`: headers filter and queue durability; a `nil`
options pointer is `none`. Neither field affects the registry or the
dispatch closure. -/
structure SubscribeOptions where
  headers : Option (GoMap HeaderVal)
  durableQueue : Bool
  deriving Repr, DecidableEq

/-- The `amqp.Publishing` built by `broker.Publish` (lines 106–132):
body = `json.Marshal(message{Event: event, Payload: string(payload)})`,
type = `fmt.Sprintf("%s:%s", exchange, event)`, headers = the
caller-supplied headers copied into an empty table (`nil` options and
absent headers both give an empty table). -/
def publishing (exchange event : String) (payload : ByteSeq)
    (opts : Option PublishOptions) : Publishing :=
  { body := jsonMarshalMessage { event := event, payload := payload }
    type := routingKey exchange event
    headers := ((opts.getD { headers := none }).headers).getD [] }

/-- `broker.Publish` (lines 106–139): builds the message, then errors with
`"connection is nil"` when `r.conn == nil`, else writes it through
`r.conn.Publish(ctx, exchange, "*", m)` — the fixed `"*"` binding key.
The result pairs the returned `error` with the list of transport writes
performed (exchange, binding key, message). -/
def Publish (b : Broker) (exchange event : String) (payload : ByteSeq)
    (opts : Option PublishOptions) :
    Except String Unit × List (String × String × Publishing) :=
  let m := publishing exchange event payload opts
  if b.conn then (.ok (), [(exchange, "*", m)])
  else (.error "connection is nil", [])

/-- A `Subscriber` as `broker.Subscribe` returns it: the routing key and
the mutable `handlerIndex` the `unsubscribe` closure captured (`-1` once
spent), plus the queue/autoAck data of the consumer. -/
structure Subscription where
  key : String
  handlerIndex : Int
  queue : String
  autoAck : Bool
  deriving Repr, DecidableEq

/-- `broker.Subscribe` (lines 141–213), state part: errors with
`"not connected"` before touching anything when `r.conn == nil`;
otherwise, under the mutex, ensures a slice exists for
`key = exchange:event`, captures `handlerIndex = len(r.handlers[key])`,
appends the handler, then builds the consumer (with `autoAck: true`) and
starts its goroutine. Returns the `(Subscriber, error)` pair and the
updated broker. -/
def Subscribe (b : Broker) (exchange queue event : String) (handler : Nat)
    (_opts : Option SubscribeOptions) : Except String Subscription × Broker :=
  if b.conn then
    let key := routingKey exchange event
    let existing := (mapGet b.handlers key).getD []
    (.ok { key := key, handlerIndex := (existing.length : Int), queue := queue,
           autoAck := true },
     { b with handlers := mapSet b.handlers key (existing ++ [handler])
              consumers := b.consumers + 1 })
  else (.error "not connected", b)

/-- The `c.unsubscribe` closure (lines 201–208): when the captured
`handlerIndex` is still `> -1`, removes the registry entry at that
position with `append(h[:i], h[i+1:]...)` under the mutex and sets the
captured index to `-1`; otherwise does nothing. `none` models the slice
expression panicking (see `goSliceRemove`) — a panic that occurs between
`r.mtx.Lock()` and `r.mtx.Unlock()`, i.e. while the registry mutex is
held. -/
def Unsubscribe (b : Broker) (s : Subscription) : Option (Broker × Subscription) :=
  if s.handlerIndex > -1 then
    let lst := (mapGet b.handlers s.key).getD []
    match goSliceRemove lst s.handlerIndex.toNat with
    | some removed =>
      some ({ b with handlers := mapSet b.handlers s.key removed },
            { s with handlerIndex := -1 })
    | none => none
  else some (b, s)

/-- What `broker.Disconnect` does besides returning: closing the
connection and joining the consumer wait-group. -/
inductive DisconnectAction
  | closedConnection
  | waitedForConsumers
  deriving Repr, DecidableEq

/-- `broker.Disconnect` (lines 245–255): errors with `"not connected"` when
`r.conn == nil`; otherwise closes the connection (whose result
`closeResult` the transport determines), waits on the consumer
wait-group, and returns the close result. The action list records what
was performed. -/
def Disconnect (b : Broker) (closeResult : Except String Unit) :
    Except String Unit × List DisconnectAction :=
  if b.conn then
    (closeResult, [.closedConnection, .waitedForConsumers])
  else (.error "not connected", [])

/-! ## The consumer dispatch closure (broker.go 171–198) -/

/-- One handler call performed by the dispatch closure: which handler, the
context it received, and the payload bytes. -/
structure Invocation where
  handler : Nat
  ctx : GoContext
  payload : ByteSeq

/-- Result of running the dispatch closure on one delivery: the handler
calls made (in order) and whether the closure returned with `r.mtx`
still locked. -/
structure DispatchResult where
  invocations : List Invocation
  mutexHeldOnReturn : Bool

/-- The `fn` closure `broker.Subscribe` installs in the consumer
(lines 171–198), run once per delivery:
`e := message{}; json.Unmarshal(msg.Body, &e)` with the error discarded
(a failed decode leaves the zero value); `r.mtx.Lock()`; registry lookup
of `msg.Type`; **`if !ok { return }` — returning without
`r.mtx.Unlock()`**; `r.mtx.Unlock()`; build the string header map; then
call every handler with a context carrying only the `"headers"` value
(no `ack{}`/`reject{}` continuation is attached) and `[]byte(e.Payload)`. -/
def consumerFn (handlers : GoMap (List Nat)) (msg : Delivery) : DispatchResult :=
  let e := (jsonUnmarshalMessage msg.body).getD { event := "", payload := [] }
  match mapGet handlers msg.type with
  | none => { invocations := [], mutexHeldOnReturn := true }
  | some hs =>
    let hdrs := msg.headers.map (fun kv => (kv.1, headerToString kv.2))
    let ctx : GoContext := { headers := hdrs, ackFn := none, rejectFn := none }
    { invocations := hs.map (fun h =>
        { handler := h, ctx := ctx, payload := e.payload })
      mutexHeldOnReturn := false }

/-! ## The liveness probe `checkRabbitMQ` (plugin.go 232–311) -/

/-- `errNotReceiveExpectedResponse` (plugin.go). -/
def errNotReceiveExpectedResponse : String := "did not receive expected response"

/-- `errTimedOutWaiting` (plugin.go). -/
def errTimedOutWaiting : String := "timed out waiting for a response"

/-- Which branch of the probe's three-way `select` fires first: the timeout
context's `ctx.Done()`, the `time.After(timeout)` hard timer, or a
message arriving on the consume stream (with its correlation id). -/
inductive SelectOutcome
  | ctxDone
  | timerFired
  | msgArrived (correlationId : String)
  deriving Repr, DecidableEq

/-- The environment the probe runs against: the results of the four
transport calls it makes (a `some` is the error the call returned) and
the select outcome. The deferred `channel.QueueDelete` ignores its
error and cannot influence the returned value, so it has no field. -/
structure ProbeEnv where
  channelErr : Option String
  queueDeclareErr : Option String
  consumeErr : Option String
  publishErr : Option String
  outcome : SelectOutcome
  deriving Repr, DecidableEq

/-- The closure returned by `checkRabbitMQ` (plugin.go 232–311), with its
fixed `correlationID = "readiness_check"`: nil-broker guard, obtain a
channel, declare a temporary queue, start consuming, publish the
self-addressed correlated message, then `select` — `ctx.Done()` and
`time.After` both return `errTimedOutWaiting`; an arriving message
returns `nil` exactly when its correlation id equals the fixed one, and
otherwise falls through to `errNotReceiveExpectedResponse`. -/
def checkRabbitMQ (brokerIsNil : Bool) (env : ProbeEnv) : Except String Unit :=
  if brokerIsNil then .error "connection is nil"
  else match env.channelErr with
  | some e => .error e
  | none => match env.queueDeclareErr with
    | some e => .error ("failed to declare a queue: " ++ e)
    | none => match env.consumeErr with
      | some e => .error ("failed to register a consumer: " ++ e)
      | none => match env.publishErr with
        | some e => .error ("failed to publish a message: " ++ e)
        | none => match env.outcome with
          | .ctxDone => .error errTimedOutWaiting
          | .timerFired => .error errTimedOutWaiting
          | .msgArrived cid =>
            if cid = "readiness_check" then .ok ()
            else .error errNotReceiveExpectedResponse

/-! ## Composite scenarios used by the claims -/

/-- A sequence of `Subscribe` calls, each given as
`(exchange, event, handler)`; the queue name is the one
`plugin.Subscribe` derives (`fmt.Sprintf("%s:events", service)`). Calls
whose result is an error leave the broker unchanged. -/
def subscribeAll (b : Broker) (subs : List (String × String × Nat)) : Broker :=
  subs.foldl (fun acc s =>
    (Subscribe acc s.1 (s.1 ++ ":events") s.2.1 s.2.2 none).2) b

/-- An unreachable `Subscriber` placeholder (used only as the default of an
`Except` projection that is always `.ok` in the scenario below). -/
def nullSubscription : Subscription :=
  { key := "", handlerIndex := -1, queue := "", autoAck := true }

/-- First half of the sequential scenario of claim C5: on a connected
broker with an empty registry, subscribe A then B under the same routing
key, then call `A.Unsubscribe()`. `none` would mean that call panicked
(it does not: A's captured index 0 is in range). -/
def c5AfterA (exchange queue event : String) (hA hB : Nat) : Option Broker :=
  let b0 : Broker := { conn := true, handlers := [], consumers := 0 }
  let r1 := Subscribe b0 exchange queue event hA none
  let r2 := Subscribe r1.2 exchange queue event hB none
  let subA := r1.1.toOption.getD nullSubscription
  (Unsubscribe r2.2 subA).map (fun u => u.1)

/-- The full sequential scenario of claim C5: subscribe A then B under the
same routing key, then `A.Unsubscribe()` followed by `B.Unsubscribe()` —
no concurrency. `some` carries the final handler slice under the key;
`none` means one of the unsubscribe calls panicked. -/
def c5Run (exchange queue event : String) (hA hB : Nat) : Option (List Nat) :=
  let b0 : Broker := { conn := true, handlers := [], consumers := 0 }
  let r1 := Subscribe b0 exchange queue event hA none
  let r2 := Subscribe r1.2 exchange queue event hB none
  let subA := r1.1.toOption.getD nullSubscription
  let subB := r2.1.toOption.getD nullSubscription
  match Unsubscribe r2.2 subA with
  | none => none
  | some u1 =>
    match Unsubscribe u1.1 subB with
    | none => none
    | some u2 => some ((mapGet u2.1.handlers (routingKey exchange event)).getD [])

/-! # Theorems -/

/-- On a valid UTF-8 byte sequence the marshal/unmarshal round trip is the
identity: no byte is ever replaced. -/
theorem utf8Sanitize_eq_self (s : ByteSeq) (h : validUtf8 s = true) :
    utf8Sanitize s = s := by
  induction s using utf8Sanitize.induct with
  | case1 => simp [utf8Sanitize]
  | case2 b0 rest h0 _ =>
    rw [validUtf8] at h
    simp only [dif_pos h0] at h
    exact absurd h (by simp)
  | case3 b0 rest h0 ih =>
    rw [validUtf8] at h
    rw [utf8Sanitize]
    simp only [dif_neg h0] at h ⊢
    rw [ih h, List.take_append_drop]

/-- Reading a Go map at the key just written yields the written value. -/
theorem mapGet_mapSet_self (m : GoMap α) (k : String) (v : α) :
    mapGet (mapSet m k v) k = some v := by
  induction m with
  | nil => simp [mapGet, mapSet]
  | cons kv rest ih =>
    obtain ⟨k', v'⟩ := kv
    by_cases h : k' = k <;> simp [mapGet, mapSet, h, ih]

/-- Writing a Go map at one key leaves every other key unchanged. -/
theorem mapGet_mapSet_ne (m : GoMap α) (k k' : String) (v : α) (h : k' ≠ k) :
    mapGet (mapSet m k v) k' = mapGet m k' := by
  induction m with
  | nil => simp [mapGet, mapSet, Ne.symm h]
  | cons kv rest ih =>
    obtain ⟨k₀, v₀⟩ := kv
    by_cases h0 : k₀ = k
    · subst h0
      simp [mapGet, mapSet, Ne.symm h]
    · simp [mapGet, mapSet, h0, ih]

/-- The handlers the dispatch closure invokes, in order, are exactly the
registry slice under the delivery's type label (the empty slice when the
key is absent — in that branch the closure returns before invoking
anything). -/
theorem consumerFn_handlers (hs : GoMap (List Nat)) (msg : Delivery) :
    (consumerFn hs msg).invocations.map (fun i => i.handler) =
      (mapGet hs msg.type).getD [] := by
  unfold consumerFn
  cases h : mapGet hs msg.type with
  | none => simp [h]
  | some v =>
    simp only [h, Option.getD_some, List.map_map]
    exact List.map_id v

/-- `Subscribe` on a connected broker appends the handler under the routing
key and preserves connectedness. -/
theorem subscribe_conn (b : Broker) (e q x : String) (h : Nat)
    (o : Option SubscribeOptions) : ((Subscribe b e q x h o).2).conn = b.conn := by
  unfold Subscribe
  by_cases hb : b.conn <;> simp [hb]

/-- Registry contents after a sequence of `Subscribe` calls on a connected
broker: under any key `k`, the pre-existing slice extended, in call
order, by every subscribed handler whose routing key is `k`. -/
theorem mapGet_subscribeAll (subs : List (String × String × Nat)) (b : Broker)
    (k : String) (hb : b.conn = true) :
    (mapGet (subscribeAll b subs).handlers k).getD [] =
      (mapGet b.handlers k).getD [] ++
        (subs.filter (fun s => routingKey s.1 s.2.1 == k)).map (fun s => s.2.2) := by
  induction subs generalizing b with
  | nil => simp [subscribeAll]
  | cons s rest ih =>
    obtain ⟨se, sx, sh⟩ := s
    have hstep : subscribeAll b ((se, sx, sh) :: rest) =
        subscribeAll (Subscribe b se (se ++ ":events") sx sh none).2 rest := by
      simp [subscribeAll]
    rw [hstep, ih _ (by rw [subscribe_conn]; exact hb)]
    unfold Subscribe
    simp only [hb, if_true]
    by_cases hk : routingKey se sx = k
    · subst hk
      simp [mapGet_mapSet_self]
    · simp [mapGet_mapSet_ne _ _ _ _ (fun hh => hk hh.symm), hk]

/-! ## Claim theorems -/

/-- **C1.** The claim says the registry mutex is released before the
dispatch closure returns, in particular on the no-handlers path. The code
(broker.go 181–186) does the opposite: `if !ok { return }` exits between
`r.mtx.Lock()` and `r.mtx.Unlock()`. Evaluated at a delivery whose
routing-key label has no registry entry: the delivery is indeed dropped
(no invocation), but the closure returns with the mutex still held, so no
later `register`/`unregister`/`lookup` can acquire it. -/
theorem c1_dispatch_keeps_mutex_on_unknown_key :
    (consumerFn [] { body := .wire "x" [0x61], type := "E:x", headers := [] }).invocations = [] ∧
    (consumerFn [] { body := .wire "x" [0x61], type := "E:x", headers := [] }).mutexHeldOnReturn = true ∧
    (consumerFn [("E:x", [7])] { body := .wire "x" [0x61], type := "E:x", headers := [] }).mutexHeldOnReturn = false :=
  ⟨rfl, rfl, rfl⟩

/-- **C2.** The claim says the context passed to each invoked handler
carries the delivery's acknowledgement continuation, so `Ack` / `Reject` /
`RejectAndRequeue` inside the handler resolve it. The dispatch closure
builds its context from `context.Background()` and attaches only the
`"headers"` value — never the `ack{}`/`reject{}` keys — so for a dispatched
delivery with a registered handler, the handler's context has no
continuation and all three facade methods return the no-continuation
error. -/
theorem c2_handler_context_has_no_continuation :
    (consumerFn [("E:x", [7])] { body := .wire "x" [0x61], type := "E:x", headers := [] }).invocations.map
        (fun i => (i.handler, i.ctx.ackFn.isNone, i.ctx.rejectFn.isNone)) = [(7, true, true)] ∧
    (consumerFn [("E:x", [7])] { body := .wire "x" [0x61], type := "E:x", headers := [] }).invocations.map
        (fun i => (Ack i.ctx, Reject i.ctx, RejectAndRequeue i.ctx)) =
      [(.error "no acknowledged", .error "no rejected", .error "no rejected")] :=
  ⟨rfl, rfl⟩

/-- **C3.** The claim says a delivery whose body fails to decode is dropped
with no handler invoked. The code discards the `json.Unmarshal` error
(broker.go 174), so on a malformed body the registered handlers are still
invoked — with the zero-value envelope's empty payload. (The loop is not
terminated and no fault propagates, as the claim also says; only the
"dropped / no handler invoked" part fails.) -/
theorem c3_malformed_body_still_invokes_handlers :
    (consumerFn [("E:x", [7])] { body := .malformed [0x6E], type := "E:x", headers := [] }).invocations.map
        (fun i => (i.handler, i.payload)) = [(7, [])] ∧
    (consumerFn [("E:x", [7])] { body := .malformed [0x6E], type := "E:x", headers := [] }).mutexHeldOnReturn = false :=
  ⟨rfl, rfl⟩

/-- **C4 counterexample.** On a context with no continuation, `Ack` returns
the error `"no acknowledged"` — not `"not acknowledged"` as the claim
states — and `Reject` returns `"no rejected"`, not `"not rejected"`. -/
theorem c4_counterexample :
    Ack backgroundCtx = .error "no acknowledged" ∧
    Ack backgroundCtx ≠ .error "not acknowledged" ∧
    Reject backgroundCtx = .error "no rejected" ∧
    Reject backgroundCtx ≠ .error "not rejected" ∧
    RejectAndRequeue backgroundCtx ≠ .error "not rejected" := by
  refine ⟨rfl, ?_, rfl, ?_, ?_⟩ <;> simp [Ack, Reject, RejectAndRequeue, backgroundCtx]

/-- **C4 amended.** As the claim states but with the error strings the code
actually uses: `Ack`, `Reject`, `RejectAndRequeue` resolve the
continuation from the context and invoke it with `false`, `false`, `true`
respectively; on any context without the continuation they return the
distinct errors `"no acknowledged"` (Ack) and `"no rejected"`
(Reject/RejectAndRequeue) — and, the model being pure, no continuation is
invoked in that case. -/
theorem c4_amended_facade_behaviour (hdrs : GoMap String)
    (f g : Bool → Except String Unit) :
    Ack { headers := hdrs, ackFn := some f, rejectFn := some g } = f false ∧
    Reject { headers := hdrs, ackFn := some f, rejectFn := some g } = g false ∧
    RejectAndRequeue { headers := hdrs, ackFn := some f, rejectFn := some g } = g true ∧
    (∀ r, Ack { headers := hdrs, ackFn := none, rejectFn := r } = .error "no acknowledged") ∧
    (∀ a, Reject { headers := hdrs, ackFn := a, rejectFn := none } = .error "no rejected") ∧
    (∀ a, RejectAndRequeue { headers := hdrs, ackFn := a, rejectFn := none } = .error "no rejected") ∧
    ("no acknowledged" : String) ≠ "no rejected" :=
  ⟨rfl, rfl, rfl, fun _ => rfl, fun _ => rfl, fun _ => rfl, by decide⟩

/-- **C5.** The claim says unsubscribing A then B sequentially under one
routing key leaves zero handlers. Evaluated at handlers `0` (A) and `1`
(B) under key `"E:x"`: after `A.Unsubscribe()` the registry holds exactly
B's handler (A's was removed correctly), but `B.Unsubscribe()` then
evaluates `r.handlers[key][2:]` on a slice of length 1 — the high bound
defaults to the length, so Go panics (`slice bounds out of range [2:1]`)
while holding `r.mtx`. The sequence never reaches a defined final state,
let alone one with zero handlers. -/
theorem c5_second_unsubscribe_panics :
    (c5AfterA "E" "q" "x" 0 1).map (fun b => (mapGet b.handlers "E:x").getD []) =
      some [1] ∧
    c5Run "E" "q" "x" 0 1 = none :=
  ⟨rfl, rfl⟩

/-- **C6.** For any sequence of `Subscribe` calls on distinct routing keys,
a `Publish` to exchange `E` with event `X` labels the message with exactly
`E ++ ":" ++ X`, and dispatching that delivery invokes exactly the
handlers subscribed under routing key `E:X`, in registration order, and no
handler registered under a different key. -/
theorem c6_publish_dispatch_exact_handlers (subs : List (String × String × Nat))
    (E X : String) (p : ByteSeq)
    (hdistinct : (subs.map (fun s => routingKey s.1 s.2.1)).Nodup) :
    (publishing E X p none).type = E ++ ":" ++ X ∧
    (consumerFn (subscribeAll { conn := true, handlers := [], consumers := 0 } subs).handlers
          (deliveryOf (publishing E X p none))).invocations.map (fun i => i.handler) =
      (subs.filter (fun s => routingKey s.1 s.2.1 == routingKey E X)).map (fun s => s.2.2) := by
  refine ⟨rfl, ?_⟩
  rw [consumerFn_handlers]
  have ht : (deliveryOf (publishing E X p none)).type = routingKey E X := rfl
  rw [ht, mapGet_subscribeAll subs _ (routingKey E X) rfl]
  simp [mapGet]

/-- Witness for C6 at a concrete input: two subscriptions under the
distinct keys `E:x` and `F:y`; publishing `(E, x)` dispatches exactly to
handler `1`. -/
theorem c6_publish_dispatch_witness :
    ((([("E", "x", 1), ("F", "y", 2)] : List (String × String × Nat)).map
        (fun s => routingKey s.1 s.2.1)).Nodup) ∧
    ((publishing "E" "x" [0x61] none).type = "E" ++ ":" ++ "x" ∧
      (consumerFn (subscribeAll { conn := true, handlers := [], consumers := 0 }
            [("E", "x", 1), ("F", "y", 2)]).handlers
          (deliveryOf (publishing "E" "x" [0x61] none))).invocations.map (fun i => i.handler) =
        ([("E", "x", 1), ("F", "y", 2)].filter
          (fun s => routingKey s.1 s.2.1 == routingKey "E" "x")).map (fun s => s.2.2)) :=
  ⟨by simp [routingKey], c6_publish_dispatch_exact_handlers _ "E" "x" [0x61]
    (by simp [routingKey])⟩

/-- **C7 counterexample.** The round trip is not byte-identical for every
payload byte sequence: the single byte `0xFF` is not valid UTF-8, so
`json.Marshal` coerces it to the replacement rune, and the handler
registered under the publish's own routing key receives
`[0xEF, 0xBF, 0xBD]`, not `[0xFF]`. -/
theorem c7_counterexample :
    (consumerFn ((Subscribe { conn := true, handlers := [], consumers := 0 }
          "E" "q" "x" 5 none).2).handlers
        (deliveryOf (publishing "E" "x" [0xFF] none))).invocations.map (fun i => i.payload) =
      [[0xEF, 0xBF, 0xBD]] ∧
    [[0xEF, 0xBF, 0xBD]] ≠ [[0xFF]] := by
  constructor
  · simp [Subscribe, publishing, deliveryOf, consumerFn, jsonMarshalMessage,
          jsonUnmarshalMessage, mapGet, mapSet, routingKey, utf8Sanitize, runeLen,
          byteAt, replacementBytes]
  · decide

/-- **C7 amended.** For every *valid UTF-8* payload byte sequence (the
spec's example `"abc"` included), publishing `{event, payload}` and
dispatching the resulting delivery to a handler registered under the same
routing key hands the handler payload bytes byte-identical to the input;
invalid UTF-8 bytes are instead replaced by U+FFFD during `json.Marshal`. -/
theorem c7_roundtrip_valid_utf8 (exchange queue event : String) (hid : Nat)
    (p : ByteSeq) (hp : validUtf8 p = true) :
    (consumerFn ((Subscribe { conn := true, handlers := [], consumers := 0 }
          exchange queue event hid none).2).handlers
        (deliveryOf (publishing exchange event p none))).invocations.map
      (fun i => i.payload) = [p] := by
  simp [Subscribe, publishing, deliveryOf, consumerFn, jsonMarshalMessage,
        jsonUnmarshalMessage, mapGet, mapSet, mapGet_mapSet_self,
        utf8Sanitize_eq_self p hp]

/-- Witness for C7 amended at the spec's example: payload `"abc"`
(`[0x61, 0x62, 0x63]`) is valid UTF-8 and arrives byte-identical. -/
theorem c7_roundtrip_witness :
    validUtf8 [0x61, 0x62, 0x63] = true ∧
    (consumerFn ((Subscribe { conn := true, handlers := [], consumers := 0 }
          "E" "q" "x" 0 none).2).handlers
        (deliveryOf (publishing "E" "x" [0x61, 0x62, 0x63] none))).invocations.map
      (fun i => i.payload) = [[0x61, 0x62, 0x63]] :=
  ⟨by simp [validUtf8, runeLen, byteAt],
   c7_roundtrip_valid_utf8 "E" "q" "x" 0 [0x61, 0x62, 0x63]
     (by simp [validUtf8, runeLen, byteAt])⟩

/-- **C8.** On a broker with no connection object, `Publish` returns the
error `"connection is nil"` with nothing written to the transport, and
`Subscribe` returns the error `"not connected"` with the broker state
untouched — no handler registered and no consumer goroutine started. -/
theorem c8_not_connected_no_side_effect (b : Broker) (hb : b.conn = false)
    (exchange queue event : String) (payload : ByteSeq) (h : Nat)
    (popts : Option PublishOptions) (sopts : Option SubscribeOptions) :
    Publish b exchange event payload popts = (.error "connection is nil", []) ∧
    (Subscribe b exchange queue event h sopts).1 = .error "not connected" ∧
    (Subscribe b exchange queue event h sopts).2 = b := by
  refine ⟨?_, ?_, ?_⟩ <;> simp [Publish, Subscribe, hb]

/-- Witness for C8 at a concrete disconnected broker. -/
theorem c8_not_connected_witness :
    ({ conn := false, handlers := [], consumers := 0 } : Broker).conn = false ∧
    (Publish { conn := false, handlers := [], consumers := 0 } "E" "x" [0x61] none =
        (.error "connection is nil", []) ∧
      (Subscribe { conn := false, handlers := [], consumers := 0 } "E" "q" "x" 3 none).1 =
        .error "not connected" ∧
      (Subscribe { conn := false, handlers := [], consumers := 0 } "E" "q" "x" 3 none).2 =
        { conn := false, handlers := [], consumers := 0 }) :=
  ⟨rfl, c8_not_connected_no_side_effect _ rfl "E" "q" "x" [0x61] 3 none none⟩

/-- **C9.** The probe returns `nil` exactly when every transport step
succeeds and the select's winning branch is an arriving message whose
correlation id equals the fixed `"readiness_check"`; when either timeout
branch fires first (all transport steps having succeeded) it returns the
error `"timed out waiting for a response"`; and a message with any other
correlation id never yields success. -/
theorem c9_probe_correlation (env : ProbeEnv) :
    (checkRabbitMQ false env = .ok () ↔
      env.channelErr = none ∧ env.queueDeclareErr = none ∧ env.consumeErr = none ∧
      env.publishErr = none ∧ env.outcome = .msgArrived "readiness_check") ∧
    (env.channelErr = none → env.queueDeclareErr = none → env.consumeErr = none →
      env.publishErr = none → (env.outcome = .ctxDone ∨ env.outcome = .timerFired) →
      checkRabbitMQ false env = .error "timed out waiting for a response") ∧
    (∀ cid, cid ≠ "readiness_check" → env.outcome = .msgArrived cid →
      checkRabbitMQ false env ≠ .ok ()) := by
  obtain ⟨ce, qe, se, pe, oc⟩ := env
  refine ⟨?_, ?_, ?_⟩ <;>
    cases ce <;> cases qe <;> cases se <;> cases pe <;> cases oc <;>
      simp [checkRabbitMQ, errTimedOutWaiting, errNotReceiveExpectedResponse]
  all_goals
    first
    | (split <;> simp_all)
    | (intro cid h1 h2; subst h2; exact h1)

/-- Witness for C9 at concrete environments: a matching message yields
`nil`, a first-firing timeout yields the timeout error, and a mismatched
correlation id is never success. -/
theorem c9_probe_witness :
    checkRabbitMQ false ⟨none, none, none, none, .msgArrived "readiness_check"⟩ = .ok () ∧
    checkRabbitMQ false ⟨none, none, none, none, .ctxDone⟩ =
      .error "timed out waiting for a response" ∧
    checkRabbitMQ false ⟨none, none, none, none, .msgArrived "nope"⟩ ≠ .ok () :=
  ⟨(c9_probe_correlation _).1.mpr ⟨rfl, rfl, rfl, rfl, rfl⟩,
   (c9_probe_correlation _).2.1 rfl rfl rfl rfl (Or.inl rfl),
   (c9_probe_correlation _).2.2 "nope" (by decide) rfl⟩

/-- **C10.** `Disconnect` on a broker on which `Connect` was never called
(`r.conn == nil`) returns the error `"not connected"` without closing
anything and without waiting on the consumer wait-group. -/
theorem c10_disconnect_not_connected (b : Broker) (hb : b.conn = false)
    (closeResult : Except String Unit) :
    Disconnect b closeResult = (.error "not connected", []) := by
  simp [Disconnect, hb]

/-- Witness for C10 at a concrete never-connected broker. -/
theorem c10_disconnect_witness :
    Disconnect { conn := false, handlers := [], consumers := 0 } (.ok ()) =
      (.error "not connected", []) :=
  c10_disconnect_not_connected _ rfl (.ok ())

end RabbitMQ
